import Mathlib

/-!
Shallow embedding of `src/api/balance.rs` from the repository
`Code-Parth/solana-rust-https-server-vercel`: a single serverless HTTP
handler that extracts a Solana address from a GET query string or a POST
JSON body, fetches the lamport balance over RPC, and serializes the result
as JSON.

External crate behaviour (the `url` crate's query parsing, `serde_json`'s
syntactic JSON parsing, `String::from_utf8_lossy`, `Pubkey` parsing and the
`RpcClient` network call) is abstracted as explicit capability parameters
in the `Caps` structure; everything the repository itself defines (the
handler's control flow, the derived `BalanceRequest` deserialization shape,
`fetch_balance`'s composition, `error_response`, and the exact response
bodies produced by the `json!` macro calls) is translated directly from the
source.
-/

set_option autoImplicit false

/-- The body of an inbound request, mirroring `vercel_runtime::Body`:
`Text(String)`, `Binary(Vec<u8>)` (bytes as `List Nat`), or `Empty`. -/
inductive Body where
  | text (s : String) : Body
  | binary (bs : List Nat) : Body
  | empty : Body
deriving DecidableEq

/-- An inbound HTTP request as the handler observes it: the method string
(`req.method().as_str()`), the optional raw query string
(`req.uri().query()`), and the body (`req.body()`). -/
structure Request where
  method : String
  query : Option String
  body : Body
deriving DecidableEq

/-- An HTTP response as built by `http::Response::builder()`: a status
code, a header list, and a textual body. -/
structure Response where
  status : Nat
  headers : List (String × String)
  body : String
deriving DecidableEq

/-- A JSON value, modelling `serde_json`'s value tree as far as the derived
`Deserialize` impl for `BalanceRequest` can observe it (number contents are
irrelevant to that impl, so numbers carry an `Int`). An object's fields are
kept in source order, as `serde_json`'s deserializer visits them. -/
inductive JValue where
  | null : JValue
  | bool (b : Bool) : JValue
  | num (n : Int) : JValue
  | str (s : String) : JValue
  | arr (xs : List JValue) : JValue
  | obj (fields : List (String × JValue)) : JValue

/-- The ways the Rust handler could fail to produce a response: the
`.unwrap()` inside `error_response` panicking, or the `?` on a response
builder propagating an `http::Error`. -/
inductive HandlerError where
  | panicUnwrap : HandlerError
  | builderErr : HandlerError
deriving DecidableEq

/-- The external capabilities the handler consumes, one field per
third-party call in `src/api/balance.rs`:
`parseQuery` is `form_urlencoded::parse(..).into_owned().collect()`;
`parseJson` is `serde_json`'s syntactic parse of a string into a value
tree (`none` on malformed JSON); `utf8Lossy` is `String::from_utf8_lossy`;
`parsePubkey` is `address.parse::<Pubkey>()`; `getBalance` is
`RpcClient::get_balance` against the hardcoded mainnet endpoint. `P` is
the abstract `Pubkey` type. -/
structure Caps (P : Type) where
  parseQuery : String → List (String × String)
  parseJson : String → Option JValue
  utf8Lossy : List Nat → String
  parsePubkey : String → Option P
  getBalance : P → Except Unit Nat

/-- Replace a capability structure's balance-lookup components
(`parsePubkey`, `getBalance`), keeping the parsing components. Used to
state that a handler path never invokes the balance lookup. -/
def setLookup {P : Type} (caps : Caps P) (pp : String → Option P)
    (gb : P → Except Unit Nat) : Caps P :=
  ⟨caps.parseQuery, caps.parseJson, caps.utf8Lossy, pp, gb⟩

/-- Whether a `Nat` is a status code `http::StatusCode` can represent
(all `StatusCode` constants used by the handler satisfy this). -/
def statusValid (s : Nat) : Bool :=
  decide (100 ≤ s) && decide (s ≤ 999)

/-- Characters accepted in a header name by `http::HeaderName` parsing
(the token characters used by the crate, minus quote-like characters the
handler never uses). -/
def validHeaderNameChar (c : Char) : Bool :=
  c.isAlphanum || c == '-' || c == '_' || c == '.' || c == '!' || c == '#' ||
  c == '$' || c == '%' || c == '&' || c == '*' || c == '+' || c == '^' ||
  c == '|' || c == '~'

/-- Whether a string is a valid `http::HeaderName`. -/
def validHeaderName (s : String) : Bool :=
  !s.data.isEmpty && s.data.all validHeaderNameChar

/-- Characters accepted in a header value by `http::HeaderValue` parsing:
horizontal tab or a byte in `32..=255` other than DEL. -/
def validHeaderValueChar (c : Char) : Bool :=
  c == '\t' || decide (32 ≤ c.toNat ∧ c.toNat ≤ 255 ∧ c.toNat ≠ 127)

/-- Whether a string is a valid `http::HeaderValue`. -/
def validHeaderValue (s : String) : Bool :=
  s.data.all validHeaderValueChar

/-- Whether every header pair in a list is valid. -/
def headersValid (hs : List (String × String)) : Bool :=
  hs.all (fun h => validHeaderName h.1 && validHeaderValue h.2)

/-- `Response::builder().status(st).header(..)*.body(body)`: succeeds iff
the status and every header are representable, returning the assembled
response; `none` models the builder's stored `http::Error`. -/
def Response.build (status : Nat) (headers : List (String × String))
    (body : String) : Option Response :=
  if statusValid status && headersValid headers then
    some ⟨status, headers, body⟩
  else
    none

/-- Lowercase hex digit, as `serde_json` uses for `\u00XX` escapes. -/
def hexDigitChar (n : Nat) : Char :=
  if n < 10 then Char.ofNat (48 + n) else Char.ofNat (87 + n)

/-- `serde_json`'s escaping of a single character inside a JSON string. -/
def escapeJsonChar (c : Char) : String :=
  if c == '"' then "\\\""
  else if c == '\\' then "\\\\"
  else if c == '\x08' then "\\b"
  else if c == '\t' then "\\t"
  else if c == '\n' then "\\n"
  else if c == '\x0c' then "\\f"
  else if c == '\r' then "\\r"
  else if c.toNat < 32 then
    "\\u00" ++ String.mk [hexDigitChar (c.toNat / 16), hexDigitChar (c.toNat % 16)]
  else
    String.mk [c]

/-- `serde_json`'s serialization of a string value (quoted and escaped). -/
def jsonStringLit (s : String) : String :=
  "\"" ++ String.join (s.data.map escapeJsonChar) ++ "\""

/-- The serialized body `json!({ "error": msg }).to_string()`. -/
def errorBody (msg : String) : String :=
  "\x7b\"error\":" ++ jsonStringLit msg ++ "\x7d"

/-- The serialized body `json!({ "lamports": n }).to_string()` for a
balance `n` (a `u64` in the source, printed in decimal). -/
def lamportsBody (n : Nat) : String :=
  "\x7b\"lamports\":" ++ toString n ++ "\x7d"

/-- The single header list the handler attaches to JSON responses. -/
def ctJson : List (String × String) :=
  [("Content-Type", "application/json")]

/-- `fn error_response(msg, status)` before its `.unwrap()`: build a
response with the given status, the JSON content type, and body
`{"error": msg}`. -/
def error_response (msg : String) (status : Nat) : Option Response :=
  Response.build status ctJson (errorBody msg)

/-- `Ok(error_response(msg, status))` including the `.unwrap()`: a `none`
from the builder becomes a panic. -/
def respondError (msg : String) (status : Nat) : Except HandlerError Response :=
  match error_response msg status with
  | some r => Except.ok r
  | none => Except.error HandlerError.panicUnwrap

/-- Lift a builder result through the `?` operator at the handler's
`Ok(Response::builder()...body(..)?)` sites. -/
def buildToExcept (r : Option Response) : Except HandlerError Response :=
  match r with
  | some r => Except.ok r
  | none => Except.error HandlerError.builderErr

/-- The field loop of the derived `Deserialize` impl for `BalanceRequest`:
walk the object's fields in order carrying the `address` seen so far;
a second `address` field is a duplicate-field error, a non-string
`address` value is a type error, unknown fields are ignored (serde's
default, no `deny_unknown_fields`). -/
def extractAddress : List (String × JValue) → Option String → Option String
  | [], acc => acc
  | (k, v) :: rest, acc =>
    if k = "address" then
      match acc with
      | some _ => none
      | none =>
        match v with
        | JValue.str s => extractAddress rest (some s)
        | _ => none
    else
      extractAddress rest acc

/-- The derived `Deserialize` for `struct BalanceRequest { address: String }`
applied to a JSON value: succeeds exactly on objects carrying a single
string-valued `address` field (other fields ignored). -/
def deserializeBalanceRequest : JValue → Option String
  | JValue.obj fields => extractAddress fields none
  | _ => none

/-- `serde_json::from_str::<BalanceRequest>(s)`: syntactic parse (the
`parseJson` capability) followed by the derived deserialization. -/
def fromStrBalanceRequest (pj : String → Option JValue) (s : String) :
    Option String :=
  match pj s with
  | none => none
  | some j => deserializeBalanceRequest j

/-- The GET arm's extraction: `params.iter().find(|(k, _)| k == "address")
.map(|(_, v)| v.clone())` — first pair whose key is `address`. -/
def extractGetAddress (params : List (String × String)) : Option String :=
  (params.find? (fun p => p.1 == "address")).map (fun p => p.2)

/-- `async fn fetch_balance(address)`: parse the string as a `Pubkey`
(failing if malformed), then query the RPC endpoint for the balance
(failing on any network or remote error). Both failures collapse into
the single `Except.error ()`. -/
def fetch_balance {P : Type} (caps : Caps P) (address : String) :
    Except Unit Nat :=
  match caps.parsePubkey address with
  | none => Except.error ()
  | some pk => caps.getBalance pk

/-- The handler's `match fetch_balance(..)`: `Err` ⇒ 500 "Failed to get
balance", `Ok(balance)` ⇒ 200 with `{"lamports": ..}` and the JSON
content type. -/
def afterLookup (res : Except Unit Nat) : Except HandlerError Response :=
  match res with
  | Except.error _ => respondError "Failed to get balance" 500
  | Except.ok lamports =>
    buildToExcept (Response.build 200 ctJson (lamportsBody lamports))

/-- The tail of the handler shared by both extraction paths: the Rust
`match address` (`None` ⇒ 400 "Missing address") followed by the balance
lookup. -/
def afterExtract {P : Type} (caps : Caps P) (address : Option String) :
    Except HandlerError Response :=
  match address with
  | none => respondError "Missing address" 400
  | some a => afterLookup (fetch_balance caps a)

/-- The POST arm after the body has been read to a string: parse it as a
`BalanceRequest` (`Err` ⇒ 400 "Invalid JSON"), else continue with the
extracted address. -/
def handlePostBody {P : Type} (caps : Caps P) (body : String) :
    Except HandlerError Response :=
  match fromStrBalanceRequest caps.parseJson body with
  | some addr => afterExtract caps (some addr)
  | none => respondError "Invalid JSON" 400

/-- `pub async fn handler(req)`: dispatch on the method string. GET parses
the query string (empty when absent) and extracts the first `address`
pair; POST reads the body (`Empty` ⇒ 400 "Empty body", binary decoded
lossily) and parses it as JSON; any other method yields a headerless 405
response with the plain-text body `Method Not Allowed`. -/
def handler {P : Type} (caps : Caps P) (req : Request) :
    Except HandlerError Response :=
  if req.method = "GET" then
    afterExtract caps
      (extractGetAddress (caps.parseQuery (req.query.getD "")))
  else if req.method = "POST" then
    match req.body with
    | Body.empty => respondError "Empty body" 400
    | Body.text t => handlePostBody caps t
    | Body.binary bs => handlePostBody caps (caps.utf8Lossy bs)
  else
    buildToExcept (Response.build 405 [] "Method Not Allowed")

/-- A concrete capability stub whose lookup succeeds with balance 42 for
address `A`, used to instantiate theorems at concrete inputs. -/
def stubCapsOk : Caps Unit :=
  ⟨fun q => if q = "address=A" then [("address", "A")] else [],
   fun s =>
     if s = "\x7b\"address\":\"A\"\x7d" then
       some (JValue.obj [("address", JValue.str "A")])
     else none,
   fun _ => "",
   fun a => if a = "A" then some () else none,
   fun _ => Except.ok 42⟩

/-- A concrete capability stub whose JSON parse yields an object without an
`address` field for the body `{"wrong":"field"}`. -/
def stubCapsWrongField : Caps Unit :=
  ⟨fun _ => [],
   fun s =>
     if s = "\x7b\"wrong\":\"field\"\x7d" then
       some (JValue.obj [("wrong", JValue.str "field")])
     else none,
   fun _ => "",
   fun _ => none,
   fun _ => Except.error ()⟩

/-- A concrete capability stub whose query parse yields two `address`
pairs, in order `X` then `Y`, for the query `address=X&address=Y`. -/
def stubCapsTwoAddr : Caps Unit :=
  ⟨fun q =>
     if q = "address=X&address=Y" then [("address", "X"), ("address", "Y")]
     else [],
   fun _ => none,
   fun _ => "",
   fun a => if a = "X" then some () else none,
   fun _ => Except.ok 7⟩

/-- A concrete capability stub whose pubkey parse always fails, simulating
a malformed address. -/
def stubCapsFail : Caps Unit :=
  ⟨fun q => if q = "address=bad" then [("address", "bad")] else [],
   fun _ => none,
   fun _ => "",
   fun _ => none,
   fun _ => Except.ok 0⟩

/-- A concrete capability stub whose RPC query always fails although the
pubkey parses, simulating an unreachable upstream. -/
def stubCapsRpcFail : Caps Unit :=
  ⟨fun q => if q = "address=bad" then [("address", "bad")] else [],
   fun _ => none,
   fun _ => "",
   fun _ => some (),
   fun _ => Except.error ()⟩

/-- A concrete capability stub whose JSON parse yields an object with an
`address` field followed by an unknown `other` field for the body
`{"address":"X","other":1}`. -/
def stubCapsExtra : Caps Unit :=
  ⟨fun _ => [],
   fun s =>
     if s = "\x7b\"address\":\"X\",\"other\":1\x7d" then
       some (JValue.obj [("address", JValue.str "X"), ("other", JValue.num 1)])
     else none,
   fun _ => "",
   fun a => if a = "X" then some () else none,
   fun _ => Except.ok 5⟩

/-! ## Supporting lemmas -/

/-- The serialized error body for a plain message is the expected JSON
object text. -/
theorem errorBody_empty_eval :
    errorBody "Empty body" = "\x7b\"error\":\"Empty body\"\x7d" := rfl

/-- The serialized success body for a concrete balance is the expected
JSON object text. -/
theorem lamportsBody_eval : lamportsBody 42 = "\x7b\"lamports\":42\x7d" := rfl

/-- Building a response with the JSON content-type header succeeds for any
representable status code. -/
theorem build_ctJson_ok (status : Nat) (body : String)
    (hs : statusValid status = true) :
    Response.build status ctJson body = some ⟨status, ctJson, body⟩ := by
  have hcond : (statusValid status && headersValid ctJson) = true := by
    rw [hs]; decide
  unfold Response.build
  rw [if_pos hcond]

/-- `error_response` followed by the `.unwrap()` never panics for a
representable status: it returns the JSON error payload. -/
theorem respondError_ok (msg : String) (status : Nat)
    (hs : statusValid status = true) :
    respondError msg status = Except.ok ⟨status, ctJson, errorBody msg⟩ := by
  unfold respondError error_response
  rw [build_ctJson_ok status (errorBody msg) hs]

/-- Every outcome of the shared response tail is a well-formed `Ok`
response. -/
theorem afterExtract_total {P : Type} (caps : Caps P) (o : Option String) :
    ∃ r : Response, afterExtract caps o = Except.ok r := by
  cases o with
  | none => exact ⟨_, rfl⟩
  | some a =>
    show ∃ r : Response, afterLookup (fetch_balance caps a) = Except.ok r
    cases fetch_balance caps a with
    | error e => exact ⟨_, rfl⟩
    | ok b => exact ⟨_, rfl⟩

/-- If no pair of the parsed query has key `address`, the GET extraction
finds nothing. -/
theorem extractGetAddress_none (params : List (String × String))
    (h : ∀ p ∈ params, p.1 ≠ "address") : extractGetAddress params = none := by
  unfold extractGetAddress
  have hf : params.find? (fun p => p.1 == "address") = none := by
    rw [List.find?_eq_none]
    intro p hp
    simpa using h p hp
  rw [hf]
  rfl

/-- The GET extraction selects the value of the first `address` pair. -/
theorem extractGetAddress_first (pre post : List (String × String))
    (X : String) (hpre : ∀ p ∈ pre, p.1 ≠ "address") :
    extractGetAddress (pre ++ ("address", X) :: post) = some X := by
  induction pre with
  | nil => rfl
  | cons hd tl ih =>
    have hhd : ¬((fun p : String × String => p.1 == "address") hd = true) := by
      simpa using hpre hd (List.mem_cons_self hd tl)
    unfold extractGetAddress at ih ⊢
    rw [List.cons_append,
      @List.find?_cons_of_neg (String × String)
        (fun p => p.1 == "address") hd (tl ++ ("address", X) :: post) hhd]
    exact ih (fun p hp => hpre p (List.mem_cons_of_mem hd hp))

/-- The deserialization field loop leaves the accumulator unchanged over
fields none of which is named `address`. -/
theorem extractAddress_skip (post : List (String × JValue))
    (acc : Option String) (h : ∀ p ∈ post, p.1 ≠ "address") :
    extractAddress post acc = acc := by
  induction post with
  | nil => rfl
  | cons hd tl ih =>
    obtain ⟨k, v⟩ := hd
    have hk : k ≠ "address" := by
      simpa using h (k, v) (List.mem_cons_self (k, v) tl)
    unfold extractAddress
    rw [if_neg hk]
    exact ih (fun p hp => h p (List.mem_cons_of_mem (k, v) hp))

/-- The deserialization field loop accepts an object whose single
`address` field is string-valued, whatever other fields surround it. -/
theorem extractAddress_found (pre post : List (String × JValue)) (A : String)
    (hpre : ∀ p ∈ pre, p.1 ≠ "address")
    (hpost : ∀ p ∈ post, p.1 ≠ "address") :
    extractAddress (pre ++ ("address", JValue.str A) :: post) none = some A := by
  induction pre with
  | nil =>
    show extractAddress (("address", JValue.str A) :: post) none = some A
    unfold extractAddress
    rw [if_pos rfl]
    exact extractAddress_skip post (some A) hpost
  | cons hd tl ih =>
    obtain ⟨k, v⟩ := hd
    have hk : k ≠ "address" := by
      simpa using hpre (k, v) (List.mem_cons_self (k, v) tl)
    rw [List.cons_append]
    unfold extractAddress
    rw [if_neg hk]
    exact ih (fun p hp => hpre p (List.mem_cons_of_mem (k, v) hp))

/-! ## Claim theorems -/

/-- Claim C1: for every address string A, when the balance lookup
capability returns balance B for A (`fetch_balance` succeeds with B), a
GET request whose query string parses to the pair ("address", A) and a
POST request whose body parses to the JSON object with string field
"address": A both produce status 200 with body `"lamports": B` and the
`Content-Type: application/json` header. -/
theorem get_post_success_200 {P : Type} (caps : Caps P) (A : String)
    (B : Nat) (q body : String) (b0 : Body) (q0 : Option String)
    (hq : caps.parseQuery q = [("address", A)])
    (hj : caps.parseJson body = some (JValue.obj [("address", JValue.str A)]))
    (hb : fetch_balance caps A = Except.ok B) :
    handler caps ⟨"GET", some q, b0⟩
      = Except.ok ⟨200, ctJson, lamportsBody B⟩
    ∧ handler caps ⟨"POST", q0, Body.text body⟩
      = Except.ok ⟨200, ctJson, lamportsBody B⟩ := by
  constructor
  · show afterExtract caps (extractGetAddress (caps.parseQuery q)) = _
    rw [hq]
    show afterLookup (fetch_balance caps A) = _
    rw [hb]
    rfl
  · show handlePostBody caps body = _
    unfold handlePostBody fromStrBalanceRequest
    rw [hj]
    show afterLookup (fetch_balance caps A) = _
    rw [hb]
    rfl

/-- Witness for C1: with the stub lookup returning 42 for address A, the
concrete GET `?address=A` and the concrete POST body `"address": "A"`
both yield 200 with lamports 42. -/
theorem get_post_success_200_w :
    handler stubCapsOk ⟨"GET", some "address=A", Body.empty⟩
      = Except.ok ⟨200, ctJson, lamportsBody 42⟩
    ∧ handler stubCapsOk ⟨"POST", none, Body.text "\x7b\"address\":\"A\"\x7d"⟩
      = Except.ok ⟨200, ctJson, lamportsBody 42⟩ :=
  get_post_success_200 stubCapsOk "A" 42 "address=A"
    "\x7b\"address\":\"A\"\x7d" Body.empty none rfl rfl rfl

/-- Claim C2: for every POST request whose textual body fails to parse as
a `BalanceRequest` (malformed JSON, missing `address`, or a non-string
`address`), the handler answers 400 with body `"error": "Invalid JSON"`,
and the response does not depend on the balance-lookup capability (the
lookup is never invoked). -/
theorem post_invalid_json_400 {P : Type} (caps : Caps P)
    (q0 : Option String) (body : String)
    (hj : fromStrBalanceRequest caps.parseJson body = none) :
    handler caps ⟨"POST", q0, Body.text body⟩
      = Except.ok ⟨400, ctJson, errorBody "Invalid JSON"⟩
    ∧ ∀ (pp : String → Option P) (gb : P → Except Unit Nat),
        handler (setLookup caps pp gb) ⟨"POST", q0, Body.text body⟩
          = Except.ok ⟨400, ctJson, errorBody "Invalid JSON"⟩ := by
  constructor
  · show handlePostBody caps body = _
    unfold handlePostBody
    rw [hj]
    rfl
  · intro pp gb
    show handlePostBody (setLookup caps pp gb) body = _
    unfold handlePostBody
    rw [show (setLookup caps pp gb).parseJson = caps.parseJson from rfl, hj]
    rfl

/-- Witness for C2: the concrete POST body `"wrong": "field"` (parsed to
an object without an `address` field) yields 400 Invalid JSON. -/
theorem post_invalid_json_400_w :
    handler stubCapsWrongField
        ⟨"POST", none, Body.text "\x7b\"wrong\":\"field\"\x7d"⟩
      = Except.ok ⟨400, ctJson, errorBody "Invalid JSON"⟩ :=
  (post_invalid_json_400 stubCapsWrongField none
    "\x7b\"wrong\":\"field\"\x7d" rfl).1

/-- Claim C3: every POST request with an empty body yields 400 with body
`"error": "Empty body"`, for every capability structure (so before any
JSON parsing or balance lookup can be invoked). -/
theorem post_empty_body_400 {P : Type} (caps : Caps P)
    (q0 : Option String) :
    handler caps ⟨"POST", q0, Body.empty⟩
      = Except.ok ⟨400, ctJson, errorBody "Empty body"⟩ := rfl

/-- Claim C4: for every GET request whose parsed query string (empty when
absent) has no pair with key `address`, the handler answers 400 with body
`"error": "Missing address"`, and the response does not depend on the
balance-lookup capability (the lookup is never invoked). -/
theorem get_missing_address_400 {P : Type} (caps : Caps P)
    (q0 : Option String) (b : Body)
    (hq : ∀ p ∈ caps.parseQuery (q0.getD ""), p.1 ≠ "address") :
    handler caps ⟨"GET", q0, b⟩
      = Except.ok ⟨400, ctJson, errorBody "Missing address"⟩
    ∧ ∀ (pp : String → Option P) (gb : P → Except Unit Nat),
        handler (setLookup caps pp gb) ⟨"GET", q0, b⟩
          = Except.ok ⟨400, ctJson, errorBody "Missing address"⟩ := by
  have hnone : extractGetAddress (caps.parseQuery (q0.getD "")) = none :=
    extractGetAddress_none _ hq
  constructor
  · show afterExtract caps (extractGetAddress (caps.parseQuery (q0.getD ""))) = _
    rw [hnone]
    rfl
  · intro pp gb
    show afterExtract (setLookup caps pp gb)
      (extractGetAddress (caps.parseQuery (q0.getD ""))) = _
    rw [hnone]
    rfl

/-- Witness for C4: a concrete GET with no query string yields 400
Missing address. -/
theorem get_missing_address_400_w :
    handler stubCapsOk ⟨"GET", none, Body.empty⟩
      = Except.ok ⟨400, ctJson, errorBody "Missing address"⟩ :=
  (get_missing_address_400 stubCapsOk none Body.empty
    (by intro p hp; simp [stubCapsOk] at hp)).1

/-- Claim C5: GET extraction selects the value of the first parsed
key/value pair whose key equals `address`: whenever the parsed query is
some prefix without an `address` key followed by ("address", X), the
candidate is X and the handler proceeds with address X; in particular a
query parsing to [("address", X), ("address", Y)] selects X. -/
theorem get_first_address_selected {P : Type} (caps : Caps P)
    (q X : String) (b : Body) (pre post : List (String × String))
    (hq : caps.parseQuery q = pre ++ ("address", X) :: post)
    (hpre : ∀ p ∈ pre, p.1 ≠ "address") :
    extractGetAddress (caps.parseQuery q) = some X
    ∧ handler caps ⟨"GET", some q, b⟩ = afterLookup (fetch_balance caps X) := by
  have hfirst : extractGetAddress (caps.parseQuery q) = some X := by
    rw [hq]
    exact extractGetAddress_first pre post X hpre
  refine ⟨hfirst, ?_⟩
  show afterExtract caps (extractGetAddress (caps.parseQuery q)) = _
  rw [hfirst]
  rfl

/-- Witness for C5: with the query `address=X&address=Y` parsed to the
two pairs in order, the first occurrence X is selected. -/
theorem get_first_address_selected_w :
    extractGetAddress (stubCapsTwoAddr.parseQuery "address=X&address=Y")
      = some "X"
    ∧ handler stubCapsTwoAddr ⟨"GET", some "address=X&address=Y", Body.empty⟩
      = afterLookup (fetch_balance stubCapsTwoAddr "X") :=
  get_first_address_selected stubCapsTwoAddr "address=X&address=Y" "X"
    Body.empty [] [("address", "Y")] rfl (by simp)

/-- Claim C6: every request whose method is neither GET nor POST is
answered with status 405, an empty header list (no JSON content type),
and the plain-text body `Method Not Allowed`, regardless of query string
and body. -/
theorem method_not_allowed_405 {P : Type} (caps : Caps P) (req : Request)
    (h1 : req.method ≠ "GET") (h2 : req.method ≠ "POST") :
    handler caps req = Except.ok ⟨405, [], "Method Not Allowed"⟩ := by
  unfold handler
  rw [if_neg h1, if_neg h2]
  rfl

/-- Witness for C6: a concrete PUT request yields the plain-text 405. -/
theorem method_not_allowed_405_w :
    handler stubCapsOk ⟨"PUT", none, Body.empty⟩
      = Except.ok ⟨405, [], "Method Not Allowed"⟩ :=
  method_not_allowed_405 stubCapsOk ⟨"PUT", none, Body.empty⟩
    (by decide) (by decide)

/-- Claim C7: whenever the balance lookup fails on the extracted address
(pubkey parse failure or RPC failure alike, both collapsing to
`Except.error ()` in `fetch_balance`), the handler answers 500 with body
`"error": "Failed to get balance"`; and any two capability structures
that both fail on that address produce this identical response, so the
two failure causes are indistinguishable to the caller. -/
theorem lookup_failure_500 {P : Type} (caps : Caps P) (A q : String)
    (b : Body)
    (hq : caps.parseQuery q = [("address", A)])
    (hf : fetch_balance caps A = Except.error ()) :
    handler caps ⟨"GET", some q, b⟩
      = Except.ok ⟨500, ctJson, errorBody "Failed to get balance"⟩
    ∧ ∀ (caps2 : Caps P), caps2.parseQuery q = [("address", A)] →
        fetch_balance caps2 A = Except.error () →
        handler caps2 ⟨"GET", some q, b⟩ = handler caps ⟨"GET", some q, b⟩ := by
  have key : ∀ (c : Caps P), c.parseQuery q = [("address", A)] →
      fetch_balance c A = Except.error () →
      handler c ⟨"GET", some q, b⟩
        = Except.ok ⟨500, ctJson, errorBody "Failed to get balance"⟩ := by
    intro c hcq hcf
    show afterExtract c (extractGetAddress (c.parseQuery q)) = _
    rw [hcq]
    show afterLookup (fetch_balance c A) = _
    rw [hcf]
    rfl
  refine ⟨key caps hq hf, ?_⟩
  intro caps2 hq2 hf2
  rw [key caps2 hq2 hf2, key caps hq hf]

/-- Witness for C7: with a stub whose pubkey parse fails, GET
`?address=bad` yields the generic 500, and the stub whose RPC call fails
instead produces the identical response. -/
theorem lookup_failure_500_w :
    handler stubCapsFail ⟨"GET", some "address=bad", Body.empty⟩
      = Except.ok ⟨500, ctJson, errorBody "Failed to get balance"⟩
    ∧ handler stubCapsRpcFail ⟨"GET", some "address=bad", Body.empty⟩
      = handler stubCapsFail ⟨"GET", some "address=bad", Body.empty⟩ :=
  ⟨(lookup_failure_500 stubCapsFail "bad" "address=bad" Body.empty rfl rfl).1,
   (lookup_failure_500 stubCapsFail "bad" "address=bad" Body.empty rfl rfl).2
     stubCapsRpcFail rfl rfl⟩

/-- Claim C8: the handler is total: for every request (any method, query
string and body) and every behaviour of the capabilities, it returns an
`Ok` response — neither the `?` on the builder nor the `.unwrap()` in
`error_response` can fail. -/
theorem handler_total {P : Type} (caps : Caps P) (req : Request) :
    ∃ r : Response, handler caps req = Except.ok r := by
  unfold handler
  by_cases hg : req.method = "GET"
  · rw [if_pos hg]
    exact afterExtract_total caps _
  · rw [if_neg hg]
    by_cases hp : req.method = "POST"
    · rw [if_pos hp]
      cases req.body with
      | empty => exact ⟨_, rfl⟩
      | text t =>
        show ∃ r : Response, handlePostBody caps t = Except.ok r
        unfold handlePostBody
        cases fromStrBalanceRequest caps.parseJson t with
        | none => exact ⟨_, rfl⟩
        | some addr => exact afterExtract_total caps (some addr)
      | binary bs =>
        show ∃ r : Response,
          handlePostBody caps (caps.utf8Lossy bs) = Except.ok r
        unfold handlePostBody
        cases fromStrBalanceRequest caps.parseJson (caps.utf8Lossy bs) with
        | none => exact ⟨_, rfl⟩
        | some addr => exact afterExtract_total caps (some addr)
    · rw [if_neg hp]
      exact ⟨_, rfl⟩

/-- Claim C9: the handler is deterministic given its (pure) capability
structure: two requests that agree on method, query and body receive
identical responses (status, headers, body). -/
theorem handler_deterministic {P : Type} (caps : Caps P)
    (r1 r2 : Request) (hm : r1.method = r2.method)
    (hq : r1.query = r2.query) (hb : r1.body = r2.body) :
    handler caps r1 = handler caps r2 := by
  have : r1 = r2 := by
    cases r1
    cases r2
    simp_all
  rw [this]

/-- Witness for C9: two identical concrete GET requests receive the same
response. -/
theorem handler_deterministic_w :
    handler stubCapsOk ⟨"GET", some "address=A", Body.empty⟩
      = handler stubCapsOk ⟨"GET", some "address=A", Body.empty⟩ :=
  handler_deterministic stubCapsOk ⟨"GET", some "address=A", Body.empty⟩
    ⟨"GET", some "address=A", Body.empty⟩ rfl rfl rfl

/-- Claim C10 (implicit): POST body deserialization ignores unknown
fields: a body parsing to a JSON object with a single string-valued
`address` field among arbitrary other fields deserializes to that
address, and the handler proceeds to the balance lookup instead of
answering Invalid JSON. -/
theorem post_extra_fields_ok {P : Type} (caps : Caps P)
    (q0 : Option String) (body A : String)
    (pre post : List (String × JValue))
    (hj : caps.parseJson body
      = some (JValue.obj (pre ++ ("address", JValue.str A) :: post)))
    (hpre : ∀ p ∈ pre, p.1 ≠ "address")
    (hpost : ∀ p ∈ post, p.1 ≠ "address") :
    fromStrBalanceRequest caps.parseJson body = some A
    ∧ handler caps ⟨"POST", q0, Body.text body⟩
      = afterLookup (fetch_balance caps A) := by
  have hfs : fromStrBalanceRequest caps.parseJson body = some A := by
    unfold fromStrBalanceRequest
    rw [hj]
    show deserializeBalanceRequest
      (JValue.obj (pre ++ ("address", JValue.str A) :: post)) = some A
    show extractAddress (pre ++ ("address", JValue.str A) :: post) none = some A
    exact extractAddress_found pre post A hpre hpost
  refine ⟨hfs, ?_⟩
  show handlePostBody caps body = _
  unfold handlePostBody
  rw [hfs]
  rfl

/-- Witness for C10: the concrete POST body `"address": "X"` with the
extra field `"other": 1` deserializes to address X and reaches the
lookup. -/
theorem post_extra_fields_ok_w :
    fromStrBalanceRequest stubCapsExtra.parseJson
        "\x7b\"address\":\"X\",\"other\":1\x7d" = some "X"
    ∧ handler stubCapsExtra
        ⟨"POST", none, Body.text "\x7b\"address\":\"X\",\"other\":1\x7d"⟩
      = afterLookup (fetch_balance stubCapsExtra "X") :=
  post_extra_fields_ok stubCapsExtra none
    "\x7b\"address\":\"X\",\"other\":1\x7d" "X" []
    [("other", JValue.num 1)] rfl (by simp) (by decide)
